import Mathlib

/-
Verification of the LightScope runner against its specification.

The development shallowly embeds the update, signing and supervision logic of
the runner scripts:

  src/debian_package/opt/lightscope/bin/lightscope-runner.py  (Debian runner)
  src/lightscope-runner-windows.py                            (Windows runner)
  src/sign-and-upload.py                                      (publisher tool)

Bytes are modelled as lists of naturals, file-system and event state as
explicit records, and every fallible operation as a total Lean function over
an explicit outcome parameter for the external call it wraps (network fetch,
file read, library verify).  The RSA-PSS primitives of the external
cryptography library are modelled symbolically: a signature value records the
signing key, the padding parameters and the exact message bytes, and library
verification accepts exactly the signature produced with the matching key,
the same parameters and the same message.  The repository-level content, which
the theorems actually check, is that the signer and the verifier pass the same
padding parameters and act on the exact file bytes, and how the callers react
to each verification outcome.
-/

namespace LightScope

/-! ### Symbolic model of the RSA-PSS primitives

The runner calls `public_key.verify(signature, file_data, padding.PSS(
mgf=padding.MGF1(hashes.SHA256()), salt_length=padding.PSS.MAX_LENGTH),
hashes.SHA256())` and the publisher calls `private_key.sign` with the same
padding arguments.  The hash and padding choices are embedded as data so that
the parameter agreement between signer and verifier is a provable statement
rather than an assumption. -/

inductive HashAlg where
  | sha256
deriving DecidableEq

inductive SaltLen where
  | maxLength
deriving DecidableEq

structure PSSParams where
  mgfHash : HashAlg
  saltLength : SaltLen
  digest : HashAlg
deriving DecidableEq

structure PrivateKey where
  keyId : Nat
deriving DecidableEq

structure PublicKey where
  keyId : Nat
deriving DecidableEq

/-- A well-formed signature value in the symbolic model: it records which key
produced it, with which padding parameters, over which message bytes. -/
structure Sig where
  keyId : Nat
  params : PSSParams
  message : List Nat
deriving DecidableEq

/-- Symbolic signing: `private_key.sign(file_data, padding, hash)`. -/
def rsaSign (k : PrivateKey) (p : PSSParams) (msg : List Nat) : Sig :=
  ⟨k.keyId, p, msg⟩

/-- Symbolic verification core: the library accepts exactly a signature made
by the matching private key, with the same padding parameters, over the same
message bytes. -/
def rsaVerifyOk (k : PublicKey) (s : Sig) (msg : List Nat) (p : PSSParams) : Bool :=
  decide (s = ⟨k.keyId, p, msg⟩)

/-- Signature bytes read from disk: either they decode to a signature value or
they are malformed. -/
inductive SigBytes where
  | wellFormed (s : Sig)
  | malformed
deriving DecidableEq

/-- Outcome of the `public_key.verify` library call: success, the
`InvalidSignature` exception, or any other exception. -/
inductive VerifyOutcome where
  | ok
  | invalidSignature
  | otherError
deriving DecidableEq

/-- Behaviour of the library verify call on the given inputs.  Malformed
signature bytes raise `InvalidSignature`; a well-formed signature succeeds
exactly when the symbolic check accepts it. -/
def libraryVerify (k : PublicKey) (sb : SigBytes) (msg : List Nat) (p : PSSParams) :
    VerifyOutcome :=
  match sb with
  | .malformed => .invalidSignature
  | .wellFormed s => if rsaVerifyOk k s msg p then .ok else .invalidSignature

/-- A file read inside a `try` block: the bytes, or an I/O exception. -/
inductive FileRead (α : Type) where
  | ok (a : α)
  | ioError
deriving DecidableEq

/-- The PSS parameters passed by `SecureUpdater.verify_signature`
(lightscope-runner.py lines 174-182, identical in the Windows runner):
`padding.PSS(mgf=padding.MGF1(hashes.SHA256()), salt_length=padding.PSS.MAX_LENGTH)`
with digest `hashes.SHA256()`. -/
def verifyParams : PSSParams :=
  ⟨HashAlg.sha256, SaltLen.maxLength, HashAlg.sha256⟩

/-- The PSS parameters passed by `sign_file` (sign-and-upload.py lines 77-84):
`padding.PSS(mgf=padding.MGF1(hashes.SHA256()), salt_length=padding.PSS.MAX_LENGTH)`
with digest `hashes.SHA256()`. -/
def signParams : PSSParams :=
  ⟨HashAlg.sha256, SaltLen.maxLength, HashAlg.sha256⟩

/-- `SecureUpdater.verify_signature` (lightscope-runner.py lines 159-192).
Returns `False` when `self.public_key` is unset; otherwise reads the payload
file and the signature file (any read exception is caught and yields `False`),
calls the library verify with `verifyParams`, returns `True` on success and
`False` when `InvalidSignature` or any other exception is raised. -/
def verify_signature (pub : Option PublicKey) (fileData : FileRead (List Nat))
    (sigData : FileRead SigBytes) : Bool :=
  match pub with
  | none => false
  | some k =>
    match fileData, sigData with
    | .ok msg, .ok sb =>
      match libraryVerify k sb msg verifyParams with
      | .ok => true
      | .invalidSignature => false
      | .otherError => false
    | .ok _, .ioError => false
    | .ioError, _ => false

/-- `sign_file` (sign-and-upload.py lines 69-95): signs the exact file bytes
with the private key using `signParams`. -/
def sign_file (msg : List Nat) (priv : PrivateKey) : Sig :=
  rsaSign priv signParams msg

/-! ### The installer, `SecureUpdater.download_update`

lightscope-runner.py lines 194-240 (the Windows runner, lines 170-215, is
identical except for the final `os.chmod`).  The function downloads the
candidate artifact and its detached signature into a temporary directory,
verifies the signature, and only then touches the live path: it renames the
current live file to a timestamped backup under `updates/` and then copies
(`shutil.copy2`) the verified temporary file into the live path. -/

/-- Contents of an artifact file: its bytes and the version string carried by
its embedded `ls_version` marker (the marker that
`load_current_version` extracts). -/
structure Content where
  bytes : List Nat
  version : String
deriving DecidableEq

/-- A file at the live path as it can exist on disk: fully written, or
truncated by an interrupted non-atomic copy. -/
inductive LiveFile where
  | intact (c : Content)
  | truncated
deriving DecidableEq

/-- The durable file-system state that `download_update` mutates: the live
artifact `BIN_DIR/lightscope_core.py` (possibly absent) and the backup
history under `UPDATES_DIR`. -/
structure InstallState where
  live : Option LiveFile
  backups : List LiveFile
deriving DecidableEq

/-- Outcome of the two `urllib.request.urlretrieve` downloads into the
temporary directory: both files, or a network exception. -/
inductive Download where
  | ok (core : Content) (sig : SigBytes)
  | networkError
deriving DecidableEq

/-- A file-system operation kind, to record how each install step manipulates
the live path. -/
inductive FileOp where
  | rename
  | copy
deriving DecidableEq

/-- The operation `download_update` uses to move the old live file to its
backup path: `current_core.rename(backup_path)` (line 224). -/
def backupOp : FileOp := FileOp.rename

/-- The operation `download_update` uses to put the verified artifact at the
live path: `shutil.copy2(core_temp_path, current_core)` (line 229). -/
def installOp : FileOp := FileOp.copy

/-- `SecureUpdater.download_update` (lightscope-runner.py lines 194-240) as a
function from the pre-call state to the returned boolean and the post-call
state.  Any download exception is caught by the enclosing handler and returns
`False` with the durable state untouched (the temporary directory is
discarded).  If `verify_signature` returns `False` the function returns
`False` before touching the live path.  Otherwise: if the live file exists it
is renamed into the backup list, and the verified artifact is then copied to
the live path. -/
def download_update (pub : Option PublicKey) (s : InstallState) (dl : Download) :
    Bool × InstallState :=
  match dl with
  | .networkError => (false, s)
  | .ok newCore sig =>
    if verify_signature pub (FileRead.ok newCore.bytes) (FileRead.ok sig) then
      match s.live with
      | some old =>
        (true, { live := some (LiveFile.intact newCore), backups := old :: s.backups })
      | none =>
        (true, { live := some (LiveFile.intact newCore), backups := s.backups })
    else
      (false, s)

/-- The sequence of durable states the live path and backup directory pass
through while `download_update` installs a verified artifact, one entry per
crash point: index 0 before the backup rename, index 1 after
`current_core.rename(backup_path)` (the live path is now absent), index 2 in
the middle of the non-atomic `shutil.copy2` (the live path holds a truncated
file), index 3 after the copy completes.  When no live file exists the rename
step is skipped. -/
def installStates (s : InstallState) (newCore : Content) : List InstallState :=
  match s.live with
  | some old =>
    [ s,
      { live := none, backups := old :: s.backups },
      { live := some LiveFile.truncated, backups := old :: s.backups },
      { live := some (LiveFile.intact newCore), backups := old :: s.backups } ]
  | none =>
    [ s,
      { live := some LiveFile.truncated, backups := s.backups },
      { live := some (LiveFile.intact newCore), backups := s.backups } ]

/-- The live path holds a complete artifact: neither absent nor truncated. -/
def liveComplete (s : InstallState) : Prop :=
  ∃ c, s.live = some (LiveFile.intact c)

/-! ### Startup and key loading -/

/-- The public key file at `CONFIG_DIR/lightscope-public.pem` as found on
disk: a parseable PEM key, or corrupt bytes (the parse raises and the
exception handler runs). -/
inductive PemFile where
  | valid (k : PublicKey)
  | corrupt
deriving DecidableEq

/-- `SecureUpdater.load_public_key` (lightscope-runner.py lines 102-119).
If the bundled key file exists and parses, the key is stored; if the file is
absent an error is logged and `self.public_key` is left `None`; if parsing
raises, the handler logs and sets `self.public_key = None`.  No exception
escapes and nothing aborts. -/
def load_public_key : Option PemFile → Option PublicKey
  | some (PemFile.valid k) => some k
  | some PemFile.corrupt => none
  | none => none

/-- Result of process startup: either the process refuses to start, or the
supervisor loop is entered with the given key state. -/
inductive StartupResult where
  | refusedToStart
  | runningSupervisor (pub : Option PublicKey)
deriving DecidableEq

/-- Startup path of `main` (lightscope-runner.py lines 400-433): signal
handlers, directories, `SecureUpdater()` (which calls `load_public_key`),
ready notification, startup update check, background threads, then the main
execution loop.  No branch of this path exits or raises when the key file is
absent; `main` always reaches the supervisor loop. -/
def mainStartup (keyFile : Option PemFile) : StartupResult :=
  StartupResult.runningSupervisor (load_public_key keyFile)

/-! ### The supervisor loop of the Debian runner

`main` (lightscope-runner.py lines 435-469) runs `load_lightscope_core` in a
loop.  `load_lightscope_core` (lines 319-398) starts the core in a thread and
polls once per second: if `shutdown_event` is set it breaks; else if
`update_available_event` is set it sets `shutdown_event` and breaks; after the
join it returns the restart string when `update_available_event` is set
and `True` otherwise; it returns `False` when the core file is missing or
when its reimport fails.  The loop body of `main` reacts to the results. -/

/-- The three results `load_lightscope_core` can hand to the main loop:
the restart string, a truthy normal exit, or `False` (failure). -/
inductive CoreResult where
  | restart
  | normal
  | failed
deriving DecidableEq

/-- Supervisor-visible state: the two event latches, the consecutive-failure
counter, the version string embedded in the installed artifact at
`BIN_DIR/lightscope_core.py`, and the version of the core currently loaded
(none while no core is running). -/
structure RunnerState where
  shutdown : Bool
  updateReady : Bool
  failures : Nat
  installedVersion : String
  activeVersion : Option String
deriving DecidableEq

/-- Starting the core (lightscope-runner.py lines 330-365): the module is
freshly imported or reloaded from `BIN_DIR`, so the active version becomes the
version embedded in the installed artifact. -/
def startCore (s : RunnerState) : RunnerState :=
  { s with activeVersion := some s.installedVersion }

/-- The decisive poll of the monitoring loop in `load_lightscope_core`
(lines 368-388), taken at a tick where one of the latches is observed set
while the core thread is alive.  Priority follows the code: the shutdown
check comes first, then the update check, which also sets `shutdown_event`;
after the join, the result is the restart string exactly when
`update_available_event` is set.  Returns `none` when neither latch is set
(the loop keeps polling). -/
def monitorPoll (s : RunnerState) : Option (CoreResult × RunnerState) :=
  if s.shutdown then
    some (if s.updateReady then (CoreResult.restart, s) else (CoreResult.normal, s))
  else if s.updateReady then
    some (CoreResult.restart, { s with shutdown := true })
  else
    none

/-- What one iteration of the main loop does after `load_lightscope_core`
returns, and whether the loop runs another iteration. -/
inductive MainOutcome where
  | continueLoop (s : RunnerState)
  | exitLoop (s : RunnerState)
  | exitProcess (code : Nat) (s : RunnerState)
deriving DecidableEq

/-- `max_consecutive_failures` (lightscope-runner.py line 436). -/
def maxConsecutiveFailures : Nat := 5

/-- The body of the main loop of `main` (lightscope-runner.py lines 439-469),
given the result of `load_lightscope_core` and the runner state.  On
the restart result: reset the failure counter, clear both events, `continue` (the
`while not shutdown_event.is_set()` check then passes because the latch was
just cleared).  On a truthy result: `break`.  On `False`: increment the
counter; if it reaches `max_consecutive_failures`, `sys.exit(1)`; otherwise
sleep with backoff (interruptible, see `interruptibleSleep`) and re-check the
loop condition — the `shutdown` field here is the latch value at that
post-sleep check. -/
def mainStep : CoreResult → RunnerState → MainOutcome
  | CoreResult.restart, s =>
    MainOutcome.continueLoop { s with failures := 0, updateReady := false, shutdown := false }
  | CoreResult.normal, s => MainOutcome.exitLoop s
  | CoreResult.failed, s =>
    let n := s.failures + 1
    if maxConsecutiveFailures ≤ n then
      MainOutcome.exitProcess 1 { s with failures := n }
    else if s.shutdown then
      MainOutcome.exitLoop { s with failures := n }
    else
      MainOutcome.continueLoop { s with failures := n }

/-- The action the failure branch takes: exit the process or sleep before the
next attempt. -/
inductive FailureAction where
  | exitProcess (code : Nat)
  | sleepRetry (seconds : Nat)
deriving DecidableEq

/-- The failure branch of the main loop in isolation (lightscope-runner.py
lines 453-469): increment the consecutive-failure counter; if it has reached
`max_consecutive_failures`, `sys.exit(1)`; else compute
`sleep_time = min(10 * (2 ** (consecutive_failures - 1)), 60)` and sleep.
Returns the new counter and the action taken. -/
def onCoreFailure (consecutiveFailures : Nat) : Nat × FailureAction :=
  let n := consecutiveFailures + 1
  if maxConsecutiveFailures ≤ n then
    (n, FailureAction.exitProcess 1)
  else
    (n, FailureAction.sleepRetry (min (10 * 2 ^ (n - 1)) 60))

/-- Runs `count` consecutive core failures through the failure branch,
starting from the given counter value, and collects the backoff sleeps
performed and the exit code if the process exits.  Once the process exits no
further attempt is processed. -/
def runFailures : Nat → Nat → List Nat × Option Nat
  | _, 0 => ([], none)
  | n, count + 1 =>
    match onCoreFailure n with
    | (_, FailureAction.exitProcess code) => ([], some code)
    | (n', FailureAction.sleepRetry secs) =>
      let rest := runFailures n' count
      (secs :: rest.1, rest.2)

/-- The interruptible backoff sleep (lightscope-runner.py lines 466-469):
`for _ in range(sleep_time): if shutdown_event.is_set(): break;
time.sleep(1)`.  The accumulator is the number of seconds slept so far;
`shutdownAt` is the number of elapsed seconds after which the latch is
observed set. -/
def sleepLoopAux (shutdownAt : Nat) : Nat → Nat → Nat
  | 0, slept => slept
  | iters + 1, slept =>
    if shutdownAt ≤ slept then slept else sleepLoopAux shutdownAt iters (slept + 1)

/-- Seconds actually slept by the backoff loop when the shutdown latch becomes
set `shutdownAt` seconds into a sleep of nominal length `sleepTime`. -/
def interruptibleSleep (sleepTime shutdownAt : Nat) : Nat :=
  sleepLoopAux shutdownAt sleepTime 0

/-! ### The background update-checker task of the Debian runner

`update_checker_thread` (lightscope-runner.py lines 265-297).  The thread is
created and started exactly once in `main` (lines 427-429), before the main
execution loop; no statement inside the loop, in particular not the
restart branch, creates another one.  Each wake-up of its `while` loop is
summarised by what the loop observes then. -/

/-- One wake-up of the checker loop: the shutdown latch at the loop head,
whether the hourly check is due (`current_time - last_update_check >
update_interval`), what `check_for_updates()` returns, and what
`download_update()` returns when called. -/
structure CycleObs where
  shutdown : Bool
  checkDue : Bool
  updateAvailable : Bool
  downloadOk : Bool
deriving DecidableEq

/-- What a run of the checker thread did over a sequence of wake-ups. -/
structure CheckerOutcome where
  installs : Nat
  checks : Nat
  brokeForUpdate : Bool
deriving DecidableEq

/-- `update_checker_thread` over a finite schedule of wake-ups.  The loop
exits when the shutdown latch is observed set.  When a check is due it calls
`check_for_updates`; on an available update it calls `download_update`; on a
successful download it sets `update_available_event` and `break`s out of the
loop, ending the thread; on a failed download it logs and keeps looping.
`installs` counts successful `download_update` calls, `checks` counts
`check_for_updates` calls, and `brokeForUpdate` records whether the loop
ended through the post-install `break`. -/
def update_checker_thread : List CycleObs → CheckerOutcome
  | [] => ⟨0, 0, false⟩
  | c :: rest =>
    if c.shutdown then ⟨0, 0, false⟩
    else if c.checkDue then
      if c.updateAvailable then
        if c.downloadOk then ⟨1, 1, true⟩
        else
          let o := update_checker_thread rest
          ⟨o.installs, o.checks + 1, o.brokeForUpdate⟩
      else
        let o := update_checker_thread rest
        ⟨o.installs, o.checks + 1, o.brokeForUpdate⟩
    else
      let o := update_checker_thread rest
      ⟨o.installs, o.checks, o.brokeForUpdate⟩

/-! ### Module-level load of the Debian runner

lightscope-runner.py lines 7-56.  Python executes the top-level statements in
order; each statement can bind names or look names up, and a lookup of a name
that is not yet bound raises `NameError`, which aborts the module load (and
with it the process, since this is the entry script). -/

/-- A top-level statement, reduced to its effect on the module namespace:
binding a list of names, or evaluating an expression that looks a name up. -/
inductive Stmt where
  | bind (names : List String)
  | useName (n : String)

/-- Executes a list of top-level statements over the current set of bound
names; a lookup of an unbound name stops execution with that name (a
`NameError`). -/
def execStmts : List String → List Stmt → Except String (List String)
  | env, [] => Except.ok env
  | env, Stmt.bind ns :: rest => execStmts (ns ++ env) rest
  | env, Stmt.useName n :: rest =>
    if env.contains n then execStmts env rest else Except.error n

/-- The import statements before the `try` block (lines 7-22): each binds its
module or imported names. -/
def stmtsBeforeTry : List Stmt :=
  [ Stmt.bind ["os"], Stmt.bind ["sys"], Stmt.bind ["time"], Stmt.bind ["json"],
    Stmt.bind ["hashlib"], Stmt.bind ["logging"], Stmt.bind ["tempfile"],
    Stmt.bind ["subprocess"], Stmt.bind ["urllib.request"], Stmt.bind ["urllib.error"],
    Stmt.bind ["threading"], Stmt.bind ["signal"], Stmt.bind ["Path"],
    Stmt.bind ["hashes", "serialization"], Stmt.bind ["rsa", "padding"],
    Stmt.bind ["InvalidSignature"] ]

/-- The names bound when `import systemd.daemon` succeeds and the `try` body
completes (lines 27-28). -/
def tryBodyBinds : List String := ["systemd.daemon", "SYSTEMD_AVAILABLE"]

/-- The `except ImportError` handler (lines 30-31): bind
`SYSTEMD_AVAILABLE = False`, then evaluate
`logger.warning(...)`, which looks up the
name `logger`. -/
def exceptHandlerStmts : List Stmt :=
  [ Stmt.bind ["SYSTEMD_AVAILABLE"], Stmt.useName "logger" ]

/-- The statements after the `try` block up to and including the definition of
`logger` (lines 34-56): configuration path constants, `runner_version`, the
`print` call, URL constants, `logging.basicConfig(...)` (a lookup of
`logging`), and finally `logger = logging.getLogger(...)`. -/
def stmtsAfterTry : List Stmt :=
  [ Stmt.bind ["LIGHTSCOPE_HOME"], Stmt.bind ["CONFIG_DIR"], Stmt.bind ["UPDATES_DIR"],
    Stmt.bind ["LOGS_DIR"], Stmt.bind ["BIN_DIR"], Stmt.bind ["runner_version"],
    Stmt.useName "runner_version", Stmt.bind ["UPDATE_CHECK_URL"],
    Stmt.bind ["DOWNLOAD_URL_BASE"], Stmt.useName "logging", Stmt.bind ["logger"] ]

/-- Module-level execution of lightscope-runner.py up to line 56, as a
function of whether `import systemd.daemon` succeeds.  Returns the bound
names, or the name whose lookup raised `NameError`. -/
def moduleLoad (systemdImportOk : Bool) : Except String (List String) :=
  match execStmts [] stmtsBeforeTry with
  | Except.error n => Except.error n
  | Except.ok env =>
    match (if systemdImportOk then Except.ok (tryBodyBinds ++ env)
           else execStmts env exceptHandlerStmts) with
    | Except.error n => Except.error n
    | Except.ok env2 => execStmts env2 stmtsAfterTry

/-! ### Helper lemmas -/

/-- Closed form of the backoff sleep loop: starting with `s` seconds already
slept, the loop either stops at once (latch already set) or sleeps until the
latch is observed or the iterations run out. -/
theorem sleepLoopAux_closed_form (d : Nat) :
    ∀ n s, sleepLoopAux d n s = if d ≤ s then s else min (s + n) d := by
  intro n
  induction n with
  | zero =>
    intro s
    simp only [sleepLoopAux, Nat.add_zero]
    split <;> omega
  | succ n ih =>
    intro s
    simp only [sleepLoopAux]
    by_cases h : d ≤ s
    · simp [h]
    · rw [if_neg h, if_neg h, ih (s + 1)]
      split <;> omega

/-- The backoff sleep runs for `min sleepTime shutdownAt` seconds. -/
theorem interruptibleSleep_eq_min (sleepTime shutdownAt : Nat) :
    interruptibleSleep sleepTime shutdownAt = min sleepTime shutdownAt := by
  unfold interruptibleSleep
  rw [sleepLoopAux_closed_form]
  split <;> omega

/-- A checker run performs at most one successful install. -/
theorem checker_installs_le_one (obs : List CycleObs) :
    (update_checker_thread obs).installs ≤ 1 := by
  induction obs with
  | nil => simp [update_checker_thread]
  | cons c rest ih =>
    simp only [update_checker_thread]
    split_ifs <;> simp_all

/-- Once a checker run ends in the post-install `break`, appending further
wake-ups to the schedule changes nothing: the thread has terminated. -/
theorem checker_break_stops (obs extra : List CycleObs)
    (h : (update_checker_thread obs).brokeForUpdate = true) :
    update_checker_thread (obs ++ extra) = update_checker_thread obs := by
  induction obs with
  | nil => simp [update_checker_thread] at h
  | cons c rest ih =>
    simp only [update_checker_thread, List.cons_append] at h ⊢
    split_ifs at h ⊢ <;> simp_all

/-- Coherence of the crash-point trace with the installer function: the final
entry of `installStates` is exactly the state `download_update` leaves behind
when verification succeeds. -/
theorem installStates_last_matches (pub : Option PublicKey) (s : InstallState)
    (newCore : Content) (sig : SigBytes)
    (hv : verify_signature pub (FileRead.ok newCore.bytes) (FileRead.ok sig) = true) :
    (installStates s newCore).getLast? =
      some (download_update pub s (Download.ok newCore sig)).2 := by
  obtain ⟨live, backups⟩ := s
  cases live <;> simp [installStates, download_update, hv]

/-! ### Claim theorems -/

/-- C3: for every key state, payload read and signature read,
`verify_signature` returns a boolean (it is a total `Bool`-valued function,
so it never raises), returns `false` whenever no public key was loaded,
returns `false` on malformed signature bytes, and returns `false` whenever
the well-formed signature was not produced by the matching key over the exact
payload with the verifier parameters (wrong key or digest mismatch). -/
theorem verify_signature_fail_closed (pub : Option PublicKey)
    (fileData : FileRead (List Nat)) (sigData : FileRead SigBytes) :
    (verify_signature pub fileData sigData = true ∨
      verify_signature pub fileData sigData = false)
    ∧ (pub = none → verify_signature pub fileData sigData = false)
    ∧ (sigData = FileRead.ok SigBytes.malformed →
        verify_signature pub fileData sigData = false)
    ∧ (∀ (k : PublicKey) (s : Sig) (msg : List Nat), pub = some k →
        fileData = FileRead.ok msg → sigData = FileRead.ok (SigBytes.wellFormed s) →
        s ≠ rsaSign (PrivateKey.mk k.keyId) verifyParams msg →
        verify_signature pub fileData sigData = false) := by
  refine ⟨?_, ?_, ?_, ?_⟩
  · rcases Bool.eq_false_or_eq_true (verify_signature pub fileData sigData) with h | h
    · exact Or.inl h
    · exact Or.inr h
  · intro h
    subst h
    rfl
  · intro h
    subst h
    cases pub with
    | none => rfl
    | some k => cases fileData <;> rfl
  · intro k s msg hpub hfile hsig hne
    subst hpub hfile hsig
    simp only [verify_signature, libraryVerify, rsaVerifyOk, rsaSign] at hne ⊢
    rw [if_neg (by simpa using hne)]

/-- C3 witness: with no key loaded, verification of arbitrary reads returns
`false`. -/
theorem verify_signature_fail_closed_witness :
    verify_signature none FileRead.ioError FileRead.ioError = false :=
  (verify_signature_fail_closed none FileRead.ioError FileRead.ioError).2.1 rfl

/-- C7: a signature produced by `sign_file` over the exact payload bytes is
accepted by `verify_signature` under the matching public key; any payload
differing from the signed one, and any signature value differing from the
produced one, is rejected; and the publisher and the verifier pass the same
PSS parameters. -/
theorem sign_file_verify_round_trip (priv : PrivateKey) (pub : PublicKey)
    (msg : List Nat) (hk : pub.keyId = priv.keyId) :
    verify_signature (some pub) (FileRead.ok msg)
        (FileRead.ok (SigBytes.wellFormed (sign_file msg priv))) = true
    ∧ (∀ msg2 : List Nat, msg2 ≠ msg →
        verify_signature (some pub) (FileRead.ok msg2)
          (FileRead.ok (SigBytes.wellFormed (sign_file msg priv))) = false)
    ∧ (∀ sg : Sig, sg ≠ sign_file msg priv →
        verify_signature (some pub) (FileRead.ok msg)
          (FileRead.ok (SigBytes.wellFormed sg)) = false)
    ∧ signParams = verifyParams := by
  refine ⟨?_, ?_, ?_, rfl⟩
  · simp [verify_signature, libraryVerify, rsaVerifyOk, sign_file, rsaSign, hk,
      signParams, verifyParams]
  · intro msg2 hne
    simp only [verify_signature, libraryVerify, rsaVerifyOk, sign_file, rsaSign]
    rw [if_neg]
    simp only [decide_eq_true_eq, Sig.mk.injEq, hk]
    intro hcontra
    exact hne hcontra.2.2.symm
  · intro sg hne
    simp only [verify_signature, libraryVerify, rsaVerifyOk]
    rw [if_neg]
    simp only [decide_eq_true_eq]
    intro hcontra
    apply hne
    rw [hcontra]
    simp [sign_file, rsaSign, hk, signParams, verifyParams]

/-- C7 witness: a concrete round trip with key id 0 over payload `[1, 2, 3]`
is accepted. -/
theorem sign_file_verify_round_trip_witness :
    verify_signature (some (PublicKey.mk 0)) (FileRead.ok [1, 2, 3])
      (FileRead.ok (SigBytes.wellFormed (sign_file [1, 2, 3] (PrivateKey.mk 0)))) = true :=
  (sign_file_verify_round_trip (PrivateKey.mk 0) (PublicKey.mk 0) [1, 2, 3] rfl).1

/-- C2: when signature verification fails on the downloaded pair,
`download_update` returns the failure result with the live artifact and the
backup history exactly as before the call; and whatever the download
outcome, the durable state is either untouched or the verification of the
downloaded pair returned `true` (no install without a true verify). -/
theorem download_update_fail_closed (pub : Option PublicKey) (s : InstallState)
    (newCore : Content) (sig : SigBytes)
    (h : verify_signature pub (FileRead.ok newCore.bytes) (FileRead.ok sig) = false) :
    download_update pub s (Download.ok newCore sig) = (false, s)
    ∧ (∀ dl : Download, (download_update pub s dl).2 = s ∨
        ∃ c g, dl = Download.ok c g ∧
          verify_signature pub (FileRead.ok c.bytes) (FileRead.ok g) = true) := by
  constructor
  · simp [download_update, h]
  · intro dl
    cases dl with
    | networkError => exact Or.inl rfl
    | ok c g =>
      rcases Bool.eq_false_or_eq_true
          (verify_signature pub (FileRead.ok c.bytes) (FileRead.ok g)) with hv | hv
      · exact Or.inr ⟨c, g, rfl, hv⟩
      · exact Or.inl (by simp [download_update, hv])

/-- C2 witness: with no key loaded (so verification fails), a concrete
install attempt aborts and leaves the concrete state unchanged. -/
theorem download_update_fail_closed_witness :
    download_update none
        ⟨some (LiveFile.intact ⟨[0], "1.0.0"⟩), []⟩
        (Download.ok ⟨[1], "2.0.0"⟩ SigBytes.malformed) =
      (false, ⟨some (LiveFile.intact ⟨[0], "1.0.0"⟩), []⟩) :=
  (download_update_fail_closed none ⟨some (LiveFile.intact ⟨[0], "1.0.0"⟩), []⟩
    ⟨[1], "2.0.0"⟩ SigBytes.malformed rfl).1

/-- C1: the code violates the crash-safety claim.  The install step uses a
copy (`shutil.copy2`), not an atomic rename, and the crash-point trace of a
verified install from a state with an intact live artifact contains a state
where the live path is absent (after `current_core.rename(backup_path)`) and
a state where it is truncated (mid-copy); neither state satisfies
`liveComplete`. -/
theorem download_update_crash_window :
    installOp = FileOp.copy
    ∧ (installStates ⟨some (LiveFile.intact ⟨[0], "1.0.0"⟩), []⟩ ⟨[1], "2.0.0"⟩)[1]? =
        some ⟨none, [LiveFile.intact ⟨[0], "1.0.0"⟩]⟩
    ∧ (installStates ⟨some (LiveFile.intact ⟨[0], "1.0.0"⟩), []⟩ ⟨[1], "2.0.0"⟩)[2]? =
        some ⟨some LiveFile.truncated, [LiveFile.intact ⟨[0], "1.0.0"⟩]⟩
    ∧ ¬ liveComplete ⟨none, [LiveFile.intact ⟨[0], "1.0.0"⟩]⟩
    ∧ ¬ liveComplete ⟨some LiveFile.truncated, [LiveFile.intact ⟨[0], "1.0.0"⟩]⟩ := by
  refine ⟨rfl, rfl, rfl, ?_, ?_⟩
  · rintro ⟨c, hc⟩
    simp at hc
  · rintro ⟨c, hc⟩
    simp at hc

/-- C6 counterexample: with the public key file absent, startup reaches the
supervisor loop with no key loaded; the process does not refuse to start. -/
theorem missing_key_does_not_abort_startup :
    mainStartup none = StartupResult.runningSupervisor none
    ∧ mainStartup none ≠ StartupResult.refusedToStart := by
  decide

/-- C6 amended: with the public key file absent, the process still starts and
reaches the supervisor loop with `public_key = None`; update capability is
disabled instead, because `verify_signature` then returns `false` on every
input and `download_update` consequently never installs anything. -/
theorem missing_key_starts_with_updates_disabled :
    mainStartup none = StartupResult.runningSupervisor none
    ∧ (∀ (fileData : FileRead (List Nat)) (sigData : FileRead SigBytes),
        verify_signature none fileData sigData = false)
    ∧ (∀ (s : InstallState) (dl : Download), download_update none s dl = (false, s)) := by
  refine ⟨rfl, fun _ _ => rfl, fun s dl => ?_⟩
  cases dl <;> rfl

/-- C4 counterexample: over five consecutive failures the supervisor performs
only four backoff sleeps, `10, 20, 40, 60` — not the claimed five-element
sequence ending in a second `60` — because on the fifth failure the branch
exits with code 1 before computing any sleep. -/
theorem backoff_fifth_failure_exits :
    runFailures 0 5 = ([10, 20, 40, 60], some 1)
    ∧ ([10, 20, 40, 60] : List Nat) ≠ [10, 20, 40, 60, 60]
    ∧ onCoreFailure 4 = (5, FailureAction.exitProcess 1)
    ∧ FailureAction.exitProcess 1 ≠
        FailureAction.sleepRetry (min (10 * 2 ^ (5 - 1)) 60) := by
  decide

/-- C4 amended: for consecutive-failure counts n = 1..4 the backoff delay is
exactly `min(10 * 2^(n-1), 60)` seconds, i.e. the sequence `10, 20, 40, 60`;
on the 5th consecutive failure the process exits with the non-zero code 1
without sleeping, and processing further failures after the exit changes
nothing (no 6th restart attempt). -/
theorem backoff_sequence_amended (n : Nat) (h1 : 1 ≤ n) (h4 : n ≤ 4) :
    onCoreFailure (n - 1) = (n, FailureAction.sleepRetry (min (10 * 2 ^ (n - 1)) 60))
    ∧ runFailures 0 5 = ([10, 20, 40, 60], some 1)
    ∧ runFailures 0 6 = runFailures 0 5 := by
  refine ⟨?_, by decide, by decide⟩
  interval_cases n <;> decide

/-- C4 witness: the second failure sleeps exactly 20 seconds and the run of
five failures ends in exit code 1 after the sleeps `10, 20, 40, 60`. -/
theorem backoff_sequence_amended_witness :
    onCoreFailure (2 - 1) = (2, FailureAction.sleepRetry (min (10 * 2 ^ (2 - 1)) 60))
    ∧ runFailures 0 5 = ([10, 20, 40, 60], some 1)
    ∧ runFailures 0 6 = runFailures 0 5 :=
  backoff_sequence_amended 2 (by decide) (by decide)

/-- C5: when the shutdown latch becomes set `d` seconds into a backoff sleep
of nominal length `sleepTime`, the sleep loop stops after exactly `d` seconds
(within one 1-second polling interval of the raise, and short of the nominal
length), and the post-sleep loop-condition check then exits the main loop —
the supervisor shuts down instead of attempting another restart. -/
theorem shutdown_interrupts_backoff (sleepTime d : Nat) (s : RunnerState)
    (hd : d < sleepTime) (hs : s.shutdown = true)
    (hf : s.failures + 1 < maxConsecutiveFailures) :
    interruptibleSleep sleepTime d = d
    ∧ interruptibleSleep sleepTime d ≤ d + 1
    ∧ mainStep CoreResult.failed s =
        MainOutcome.exitLoop { s with failures := s.failures + 1 } := by
  have hmin : interruptibleSleep sleepTime d = d := by
    rw [interruptibleSleep_eq_min]
    omega
  refine ⟨hmin, by omega, ?_⟩
  simp only [mainStep]
  rw [if_neg (by omega), hs]
  simp

/-- C5 witness: a shutdown raised 3 seconds into a 10-second backoff stops
the sleep at 3 seconds and the supervisor exits its loop. -/
theorem shutdown_interrupts_backoff_witness :
    interruptibleSleep 10 3 = 3
    ∧ interruptibleSleep 10 3 ≤ 3 + 1
    ∧ mainStep CoreResult.failed ⟨true, false, 0, "1.0.0", none⟩ =
        MainOutcome.exitLoop ⟨true, false, 1, "1.0.0", none⟩ :=
  shutdown_interrupts_backoff 10 3 ⟨true, false, 0, "1.0.0", none⟩
    (by decide) rfl (by decide)

/-- C8: with the update latch set and no shutdown pending while the core is
running, the monitor requests exactly one stop (it sets the shutdown latch
and returns the restart result); the main loop then clears both latches,
resets the failure counter and continues; the next cycle starts the core with
the newly installed version active; no further stop is pending in that cycle;
and the restart result is the only `load_lightscope_core` result that leads
to another loop iteration without the core having failed. -/
theorem update_ready_single_restart (s : RunnerState)
    (hsd : s.shutdown = false) (hup : s.updateReady = true) :
    monitorPoll s = some (CoreResult.restart, { s with shutdown := true })
    ∧ mainStep CoreResult.restart { s with shutdown := true } =
        MainOutcome.continueLoop
          { s with shutdown := false, updateReady := false, failures := 0 }
    ∧ (startCore { s with shutdown := false, updateReady := false, failures := 0 }).activeVersion
        = some s.installedVersion
    ∧ monitorPoll
        (startCore { s with shutdown := false, updateReady := false, failures := 0 }) = none
    ∧ (∀ (r : CoreResult) (t u : RunnerState),
        mainStep r t = MainOutcome.continueLoop u → r ≠ CoreResult.failed →
        r = CoreResult.restart) := by
  refine ⟨?_, rfl, rfl, ?_, ?_⟩
  · simp [monitorPoll, hsd, hup]
  · simp [monitorPoll, startCore]
  · intro r t u hstep hr
    cases r with
    | restart => rfl
    | normal => simp [mainStep] at hstep
    | failed => exact absurd rfl hr

/-- C8 witness: a concrete running state with the update latch set goes
through exactly one stop/restart cycle into a clean Starting state with the
installed version active. -/
theorem update_ready_single_restart_witness :
    monitorPoll ⟨false, true, 2, "2.0.0", some "1.0.0"⟩ =
      some (CoreResult.restart, ⟨true, true, 2, "2.0.0", some "1.0.0"⟩)
    ∧ mainStep CoreResult.restart ⟨true, true, 2, "2.0.0", some "1.0.0"⟩ =
        MainOutcome.continueLoop ⟨false, false, 0, "2.0.0", some "1.0.0"⟩
    ∧ (startCore ⟨false, false, 0, "2.0.0", some "1.0.0"⟩).activeVersion = some "2.0.0"
    ∧ monitorPoll (startCore ⟨false, false, 0, "2.0.0", some "1.0.0"⟩) = none
    ∧ (∀ (r : CoreResult) (t u : RunnerState),
        mainStep r t = MainOutcome.continueLoop u → r ≠ CoreResult.failed →
        r = CoreResult.restart) :=
  update_ready_single_restart ⟨false, true, 2, "2.0.0", some "1.0.0"⟩ rfl rfl

/-- C9: any run of the update-checker thread performs at most one successful
install, and once a run has ended through the post-install `break`, extending
the schedule with further wake-ups changes nothing — the thread has
terminated, so no further periodic checks or installs happen.  Since `main`
starts this thread exactly once, before its execution loop, this bounds the
background installs of the whole process lifetime by one. -/
theorem update_checker_at_most_one_install (obs extra : List CycleObs) :
    (update_checker_thread obs).installs ≤ 1
    ∧ ((update_checker_thread obs).brokeForUpdate = true →
        update_checker_thread (obs ++ extra) = update_checker_thread obs) :=
  ⟨checker_installs_le_one obs, checker_break_stops obs extra⟩

/-- C9 witness: a schedule whose first wake-up installs successfully ends the
thread; appending another installing wake-up changes nothing. -/
theorem update_checker_at_most_one_install_witness :
    (update_checker_thread [⟨false, true, true, true⟩]).installs ≤ 1
    ∧ update_checker_thread
        ([⟨false, true, true, true⟩] ++ [⟨false, true, true, true⟩]) =
      update_checker_thread [⟨false, true, true, true⟩] :=
  ⟨(update_checker_at_most_one_install [⟨false, true, true, true⟩] []).1,
    (update_checker_at_most_one_install
      [⟨false, true, true, true⟩] [⟨false, true, true, true⟩]).2 (by decide)⟩

/-- C10: when `import systemd.daemon` fails, module-level execution of the
Debian runner raises `NameError` at the `logger.warning` call in the
`ImportError` handler, because `logger` is only bound at line 56 — the
process crashes at startup; when the import succeeds, module load completes. -/
theorem systemd_import_failure_name_error :
    moduleLoad false = Except.error "logger"
    ∧ ∃ env, moduleLoad true = Except.ok env := by
  exact ⟨rfl, ⟨_, rfl⟩⟩

end LightScope
